import Mathlib

/-!
Verification of `pushMScontacts.py`: a one-file tool that finds contacts in
the IT Glue directory that sync with the Microsoft adapter but not with the
Autotask adapter, filters them by Microsoft-license tag, and creates them in
Autotask while deduplicating by (lower-cased) email.

The Python functions are shallowly embedded as pure Lean functions.  HTTP is
modelled by passing the outcome of each request in as data: a request outcome
is `Option (Nat × body)` where `none` is the retry-exhausted `None` sentinel
of `safe_request` and the `Nat` is the HTTP status code of the returned
response.  Python dict `.get` of an absent key is `Option`; Python string-set
mutation is modelled by insertion-ordered duplicate-free lists.
-/

set_option autoImplicit false

namespace PushMSContacts

/-! ### Data model: JSON shapes actually accessed by the script -/

/-- The `attributes` sub-object of an item of an `included` list.
Python reads these with `.get`: a missing key is `none`; `sync` and
`orphaned` are only ever used for truthiness, so they are `Bool`;
`label`/`value` of contact_methods are read with default `""`. -/
structure ItemAttributes where
  adapterTypeName : Option String
  sync : Bool
  orphaned : Bool
  remoteId : Option String
  resourceTypeName : Option String
  label : String
  value : String
  deriving DecidableEq, Repr

/-- An item of an `included` side-list (`item.get("type")`,
`item.get("attributes", {})`). -/
structure IncludedItem where
  type : Option String
  attributes : ItemAttributes
  deriving DecidableEq, Repr

/-- A `{"value": ...}` entry of the `contact-emails` / `contact-phones`
attribute lists. -/
structure ValueEntry where
  value : Option String
  deriving DecidableEq, Repr

/-- The `data.attributes` object of a contact detail response: the fields
`extract_emails_and_phones` and `main` read. -/
structure ContactAttributes where
  contactEmails : List ValueEntry
  contactPhones : List ValueEntry
  emailAddress : Option String
  emailAddress2 : Option String
  emailAddress3 : Option String
  phone : Option String
  mobilePhone : Option String
  alternatePhone : Option String
  faxNumber : Option String
  extensionField : Option String
  firstName : Option String
  lastName : Option String
  deriving DecidableEq, Repr

/-- A contact detail response body: its `data.attributes` and its
`included` side-list. -/
structure ContactData where
  attributes : ContactAttributes
  included : List IncludedItem
  deriving DecidableEq, Repr

/-! ### `safe_request` (lines 16-43) -/

/-- Outcome of one raw `requests.request` attempt: a transport-level
exception, or a response carrying a status code. -/
inductive AttemptOutcome where
  | exn
  | resp (status : Nat)
  deriving DecidableEq, Repr

/-- What one call of `safe_request` did: the returned value (`some status`
for a returned response, `none` for the `return None` sentinel), the
`time.sleep` backoff delays in order, and how many attempts were issued. -/
structure RequestTrace where
  result : Option Nat
  sleeps : List Nat
  attempts : Nat
  deriving DecidableEq, Repr

/-- The retry loop of `safe_request`, embedded over the sequence of raw
attempt outcomes `f` (attempt `i` yields `f i`).  A response with
`status < 400` is returned immediately; any other response and any
exception sleeps `2 ^ attempt` seconds and retries; exhausting the loop
returns the `None` sentinel. -/
def safe_request_go (f : Nat → AttemptOutcome) : Nat → Nat → RequestTrace
  | _, 0 => ⟨none, [], 0⟩
  | i, n + 1 =>
    match f i with
    | .resp s =>
      if s < 400 then ⟨some s, [], 1⟩
      else
        let t := safe_request_go f (i + 1) n
        ⟨t.result, 2 ^ i :: t.sleeps, t.attempts + 1⟩
    | .exn =>
      let t := safe_request_go f (i + 1) n
      ⟨t.result, 2 ^ i :: t.sleeps, t.attempts + 1⟩

/-- `safe_request(method, url, ...)` with retry bound `max_retries`
(default 5 in the source), over attempt outcomes `f`. -/
def safe_request (f : Nat → AttemptOutcome) (max_retries : Nat) : RequestTrace :=
  safe_request_go f 0 max_retries

/-- An attempt that does not return immediately: an exception or a
response with status `≥ 400`. -/
def attemptFails : AttemptOutcome → Prop
  | .exn => True
  | .resp s => 400 ≤ s

instance : DecidablePred attemptFails := fun o => by
  cases o with
  | exn => exact .isTrue trivial
  | resp s => exact inferInstanceAs (Decidable (400 ≤ s))

/-! ### `get_all_contact_ids` (lines 57-71): cursor pagination walker -/

/-- Body of one page of the contacts relationship collection: the ids of its
`data` items and its `links.next` cursor (pages are keyed by `Nat`). -/
structure PageEnvelope where
  dataIds : List String
  next : Option Nat
  deriving DecidableEq, Repr

/-- The `while url:` loop of `get_all_contact_ids`: follow `links.next`
until the url is absent or a fetch returns no response / a non-200 status
(then `break` with the ids collected so far).  `fetch k` is the outcome of
`safe_request` on page key `k`; `fuel` bounds the number of iterations so
the embedding is total (the theorems below supply enough fuel for every
chain they consider). -/
def get_all_contact_ids (fetch : Nat → Option (Nat × PageEnvelope)) :
    Nat → Option Nat → List String
  | 0, _ => []
  | _, none => []
  | fuel + 1, some u =>
    match fetch u with
    | none => []
    | some (status, env) =>
      if status ≠ 200 then []
      else env.dataIds ++ get_all_contact_ids fetch fuel env.next

/-- The fetch function of an `N`-page chain: page `k` holds `pages[k]`
(`none` = the fetch fails), and on success its envelope links to page
`k + 1` when one exists and carries no next link otherwise. -/
def chainFetch (pages : List (Option (List String))) (i : Nat) :
    Option (Nat × PageEnvelope) :=
  match pages[i]? with
  | none => none
  | some none => none
  | some (some items) =>
    some (200, ⟨items, if i + 1 < pages.length then some (i + 1) else none⟩)

/-- Expected value for the walker on a chain, from the spec's words:
the concatenation of the pages' items, truncated at the first failed page. -/
def pagesReturned : List (Option (List String)) → List String
  | [] => []
  | none :: _ => []
  | some items :: rest => items ++ pagesReturned rest

/-! ### Contact classification (lines 49-54, 81-87) -/

/-- `contact_syncs_with(contact_data, target_adapter)`: the `for` loop with
early `return True` over the `included` list is `List.any`. -/
def contact_syncs_with (contact_data : ContactData) (target_adapter : String) : Bool :=
  contact_data.included.any fun item =>
    decide (item.attributes.adapterTypeName = some target_adapter) && item.attributes.sync

/-- `contact_has_ms_license(contact_data)`: some included item of type
`"tags"` has resource-type-name `"Microsoft Licenses"`. -/
def contact_has_ms_license (contact_data : ContactData) : Bool :=
  contact_data.included.any fun item =>
    decide (item.type = some "tags") &&
      decide (item.attributes.resourceTypeName = some "Microsoft Licenses")

/-! ### `get_microsoft_only_contacts` (lines 90-112) -/

/-- The filtering stage of `get_microsoft_only_contacts`, over the detail
fetch outcomes: `results` pairs each contact id with the outcome of its
`fetch_contact_details` call, listed in completion order.  A missing
response or non-200 status is skipped with a warning; an ok contact is kept
iff it syncs with Microsoft, does not sync with Autotask, and its license
tag matches the `licensed` request. -/
def get_microsoft_only_contacts
    (results : List (String × Option (Nat × ContactData))) (licensed : Bool) :
    List (String × ContactData) :=
  results.filterMap fun r =>
    match r.2 with
    | none => none
    | some (status, contact_data) =>
      if status ≠ 200 then none
      else
        let syncs_with_microsoft := contact_syncs_with contact_data "Microsoft"
        let syncs_with_autotask := contact_syncs_with contact_data "Autotask"
        let has_license := contact_has_ms_license contact_data
        if syncs_with_microsoft && !syncs_with_autotask &&
            ((licensed && has_license) || (!licensed && !has_license))
        then some (r.1, contact_data)
        else none

/-! ### `extract_emails_and_phones` (lines 115-151) -/

/-- Python `str.lower()`: lower-case every character. -/
def strLower (s : String) : String :=
  ⟨s.data.map Char.toLower⟩

/-- Python `str.strip()`: drop leading and trailing whitespace. -/
def strStrip (s : String) : String :=
  ⟨((s.data.dropWhile Char.isWhitespace).reverse.dropWhile Char.isWhitespace).reverse⟩

/-- Python `set.add`, on an insertion-ordered duplicate-free list: a value
already present is not added again. -/
def setAdd (xs : List String) (s : String) : List String :=
  if s ∈ xs then xs else xs ++ [s]

/-- Python `needle in hay` on strings. -/
def strContains (hay needle : String) : Bool :=
  2 ≤ (hay.splitOn needle).length

/-- `extract_emails_and_phones(contact_data)`: collect trimmed values from
the structured `contact-emails` / `contact-phones` entries, the flat legacy
attribute fields (phones excluding a case-insensitive `"n/a"`), and
included `contact_methods` items routed by label.  Sets are modelled as
insertion-ordered duplicate-free lists, so dedup is by exact string
equality after trimming. -/
def extract_emails_and_phones (contact_data : ContactData) : List String × List String :=
  let attrs := contact_data.attributes
  let emails := attrs.contactEmails.foldl
    (fun es e =>
      match e.value with
      | some v => if v ≠ "" then setAdd es (strStrip v) else es
      | none => es) []
  let phones := attrs.contactPhones.foldl
    (fun ps e =>
      match e.value with
      | some v => if v ≠ "" then setAdd ps (strStrip v) else ps
      | none => ps) []
  let emails := [attrs.emailAddress, attrs.emailAddress2, attrs.emailAddress3].foldl
    (fun es o =>
      match o with
      | some v => if v ≠ "" then setAdd es (strStrip v) else es
      | none => es) emails
  let phones := [attrs.phone, attrs.mobilePhone, attrs.alternatePhone,
      attrs.faxNumber, attrs.extensionField].foldl
    (fun ps o =>
      match o with
      | some v => if v ≠ "" && strLower (strStrip v) ≠ "n/a" then setAdd ps (strStrip v) else ps
      | none => ps) phones
  let pair := contact_data.included.foldl
    (fun (ep : List String × List String) item =>
      if item.type = some "contact_methods" then
        let label := strLower item.attributes.label
        let value := item.attributes.value
        if value ≠ "" then
          if strContains label "email" then (setAdd ep.1 (strStrip value), ep.2)
          else if strContains label "phone" || strContains label "mobile" ||
              strContains label "fax" then (ep.1, setAdd ep.2 (strStrip value))
          else ep
        else ep
      else ep) (emails, phones)
  pair

/-! ### `get_autotask_remote_id_from_included` (lines 154-159) -/

/-- The loop's match condition: adapter-type-name is `"Autotask"`
(no sync or orphaned check). -/
def isAutotaskItem (item : IncludedItem) : Bool :=
  decide (item.attributes.adapterTypeName = some "Autotask")

/-- `get_autotask_remote_id_from_included(included)`: the `remote-id` of
the first included item whose adapter-type-name is `"Autotask"` (which may
itself be absent), else `None`. -/
def get_autotask_remote_id_from_included (included : List IncludedItem) : Option String :=
  match included.find? isAutotaskItem with
  | some item => item.attributes.remoteId
  | none => none

/-! ### `create_contact_in_autotask` (lines 185-233) -/

/-- A candidate payload dict built in `main`: `contact_data.get(key)`. -/
structure CandidatePayload where
  firstName : Option String
  lastName : Option String
  email : Option String
  phone : Option String
  deriving DecidableEq, Repr

/-- `(contact_data.get("email") or "").strip().lower()`. -/
def normEmail (o : Option String) : String :=
  strLower (strStrip (o.getD ""))

/-- `create_contact_in_autotask(...)`: skip (returning `False`) a
non-empty email already in the cache, an empty last name, an empty email,
a missing POST response, and a POST status other than 200; on a 200 POST
add the normalized email to the cache and return `True`.  `postStatus` is
the outcome of the `safe_request` POST; the returned pair is
(return value, cache after the call). -/
def create_contact_in_autotask (postStatus : Option Nat)
    (contact_data : CandidatePayload) (existing_emails_cache : List String) :
    Bool × List String :=
  if normEmail contact_data.email ≠ "" ∧
      normEmail contact_data.email ∈ existing_emails_cache then
    (false, existing_emails_cache)
  else if contact_data.lastName.getD "" = "" then (false, existing_emails_cache)
  else if normEmail contact_data.email = "" then (false, existing_emails_cache)
  else
    match postStatus with
    | none => (false, existing_emails_cache)
    | some s =>
      if s ≠ 200 then (false, existing_emails_cache)
      else (true, normEmail contact_data.email :: existing_emails_cache)

/-! ### `get_autotask_syncing_orgs` (lines 236-280) -/

/-- The classification test of the scanner's inner loop: an included item
with adapter-type-name `"Autotask"`, `sync` truthy and `orphaned` falsy. -/
def adapterActiveAutotask (item : IncludedItem) : Bool :=
  decide (item.attributes.adapterTypeName = some "Autotask") &&
    item.attributes.sync && !item.attributes.orphaned

/-- The per-organization pass of `get_autotask_syncing_orgs`: `orgs` is the
(id, name) list the first pass enumerated, `detail oid` the outcome of the
detail fetch with included adapters_resources.  A failed or non-200 detail
fetch skips the organization; an organization is kept, as the triple
(id, name, included list), iff some included item passes
`adapterActiveAutotask` (the loop with `break` is `List.any`). -/
def get_autotask_syncing_orgs (orgs : List (String × String))
    (detail : String → Option (Nat × List IncludedItem)) :
    List (String × String × List IncludedItem) :=
  orgs.filterMap fun o =>
    match detail o.1 with
    | none => none
    | some (status, included) =>
      if status ≠ 200 then none
      else if included.any adapterActiveAutotask then some (o.1, o.2, included)
      else none

/-! ### The creation loop of `main` (lines 344-358) -/

/-- The sequential creation loop of `main`: for each (company id, payload)
candidate, call `create_contact_in_autotask` against that company's cache,
count successes, and carry the mutated per-company caches.  `post cid p` is
the POST outcome the server gives for payload `p` at company `cid`; the
per-company caches are a total function (lazy initialisation from
`get_existing_autotask_contacts` is folded into the initial caches). -/
def main_creation_pipeline (post : String → CandidatePayload → Option Nat) :
    List (String × CandidatePayload) → (String → List String) →
    Nat × (String → List String)
  | [], caches => (0, caches)
  | (cid, p) :: rest, caches =>
    let step := create_contact_in_autotask (post cid p) p (caches cid)
    let caches' := fun c => if c = cid then step.2 else caches c
    let r := main_creation_pipeline post rest caches'
    (if step.1 then r.1 + 1 else r.1, r.2)


/-! ### Concrete fixtures used by witnesses and end-to-end conjuncts -/

/-- A contact whose Directory attributes carry the same email in two letter
cases (plus an exact duplicate); used to exhibit case-sensitive dedup. -/
def janeContact : ContactData :=
  { attributes :=
      { contactEmails := [⟨some "Jane@X.com"⟩, ⟨some "jane@x.com"⟩, ⟨some "Jane@X.com"⟩]
        contactPhones := []
        emailAddress := none, emailAddress2 := none, emailAddress3 := none
        phone := none, mobilePhone := none, alternatePhone := none
        faxNumber := none, extensionField := none
        firstName := some "Jane", lastName := some "Doe" }
    included := [] }

/-- A creation candidate whose email differs from a cached one only in
letter case. -/
def janeCandidate : CandidatePayload := ⟨some "Jane", some "Doe", some "Jane@X.com", none⟩

/-- A complete, valid creation candidate. -/
def bobCandidate : CandidatePayload := ⟨some "Bob", some "Smith", some "bob@x.com", none⟩

/-- A creation candidate with an empty last name. -/
def noLastNameCandidate : CandidatePayload := ⟨some "Ann", some "", some "ann@x.com", none⟩

/-- An included adapter item that syncs with Microsoft. -/
def msSyncItem : IncludedItem :=
  ⟨some "adapters_resources", ⟨some "Microsoft", true, false, none, none, "", ""⟩⟩

/-- An included tag item carrying the Microsoft Licenses resource type. -/
def msTagItem : IncludedItem :=
  ⟨some "tags", ⟨none, false, false, none, some "Microsoft Licenses", "", ""⟩⟩

/-- Contact attributes with every field absent or empty. -/
def emptyContactAttributes : ContactAttributes :=
  ⟨[], [], none, none, none, none, none, none, none, none, none, none⟩

/-- An Autotask relationship that is orphaned and not syncing, with
remote-id `"B"`. -/
def orphanedAutotaskItem : IncludedItem :=
  ⟨some "adapters_resources", ⟨some "Autotask", false, true, some "B", none, "", ""⟩⟩

/-- An Autotask relationship that is actively syncing, with remote-id
`"A"`. -/
def activeAutotaskItem : IncludedItem :=
  ⟨some "adapters_resources", ⟨some "Autotask", true, false, some "A", none, "", ""⟩⟩

/-- An included list whose first Autotask item is the orphaned one. -/
def orphanFirstIncluded : List IncludedItem := [orphanedAutotaskItem, activeAutotaskItem]

/-- An included item of a different adapter type. -/
def nonAutotaskItem : IncludedItem :=
  ⟨some "adapters_resources", ⟨some "Microsoft", true, false, some "M", none, "", ""⟩⟩

/-! ### Helper lemmas -/

lemma safe_request_go_all_fail (f : Nat → AttemptOutcome) :
    ∀ (n i : Nat), (∀ j, j < n → attemptFails (f (i + j))) →
      safe_request_go f i n =
        ⟨none, (List.range n).map (fun j => 2 ^ (i + j)), n⟩ := by
  intro n
  induction n with
  | zero => intro i _; rfl
  | succ n ih =>
    intro i h
    have h0 : attemptFails (f i) := by simpa using h 0 (Nat.succ_pos n)
    have hrec : safe_request_go f (i + 1) n =
        ⟨none, (List.range n).map (fun j => 2 ^ (i + 1 + j)), n⟩ := by
      apply ih
      intro j hj
      have := h (j + 1) (by omega)
      simpa [Nat.add_assoc, Nat.add_comm 1 j] using this
    have hmap : (List.range (n + 1)).map (fun j => 2 ^ (i + j)) =
        2 ^ i :: (List.range n).map (fun j => 2 ^ (i + 1 + j)) := by
      rw [List.range_succ_eq_map, List.map_cons, List.map_map]
      simp only [Nat.add_zero, Function.comp_apply]
      congr 1
      apply List.map_congr_left
      intro j _
      simp only [Function.comp_apply]
      congr 1
      omega
    rw [hmap]
    cases hf : f i with
    | exn => simp [safe_request_go, hf, hrec]
    | resp s =>
      have h400 : 400 ≤ s := by rw [hf] at h0; exact h0
      have hs : ¬ s < 400 := by omega
      simp [safe_request_go, hf, hs, hrec]

lemma get_all_contact_ids_none (fetch : Nat → Option (Nat × PageEnvelope)) (fuel : Nat) :
    get_all_contact_ids fetch fuel none = [] := by
  cases fuel <;> rfl

lemma get_all_contact_ids_chainFetch (pages : List (Option (List String))) :
    ∀ (fuel k : Nat), pages.length - k ≤ fuel →
      get_all_contact_ids (chainFetch pages) fuel (some k) =
        pagesReturned (pages.drop k) := by
  intro fuel
  induction fuel with
  | zero =>
    intro k hk
    have hdrop : pages.drop k = [] := List.drop_eq_nil_of_le (by omega)
    simp [get_all_contact_ids, hdrop, pagesReturned]
  | succ fuel ih =>
    intro k hk
    cases hpk : pages[k]? with
    | none =>
      have hlen : pages.length ≤ k := by
        by_contra hlt
        rw [List.getElem?_eq_getElem (by omega)] at hpk
        exact Option.noConfusion hpk
      have hdrop : pages.drop k = [] := List.drop_eq_nil_of_le hlen
      simp [get_all_contact_ids, chainFetch, hpk, hdrop, pagesReturned]
    | some page =>
      have hklt : k < pages.length := by
        by_contra hge
        rw [List.getElem?_eq_none (by omega)] at hpk
        exact Option.noConfusion hpk
      have hdrop : pages.drop k = pages[k] :: pages.drop (k + 1) :=
        List.drop_eq_getElem_cons hklt
      have hgetk : pages[k] = page := by
        rw [List.getElem?_eq_getElem hklt] at hpk
        exact Option.some.inj hpk
      cases page with
      | none =>
        simp [get_all_contact_ids, chainFetch, hpk, hdrop, hgetk, pagesReturned]
      | some items =>
        by_cases hnext : k + 1 < pages.length
        · have hrec := ih (k + 1) (by omega)
          simp [get_all_contact_ids, chainFetch, hpk, hnext, hdrop, hgetk,
            pagesReturned, hrec]
        · have hdrop1 : pages.drop (k + 1) = [] := List.drop_eq_nil_of_le (by omega)
          simp [get_all_contact_ids, chainFetch, hpk, hnext, hdrop, hgetk,
            pagesReturned, hdrop1, get_all_contact_ids_none]

lemma bool_filter_cond (a b h l : Bool) :
    (a && !b && ((l && h) || (!l && !h))) = true ↔ (a = true ∧ b = false ∧ h = l) := by
  cases a <;> cases b <;> cases h <;> cases l <;> decide

lemma any_perm {α : Type} (p : α → Bool) {l l' : List α} (h : l.Perm l') :
    l.any p = l'.any p := by
  rw [Bool.eq_iff_iff]
  simp only [List.any_eq_true]
  constructor
  · rintro ⟨x, hx, hp⟩; exact ⟨x, h.mem_iff.mp hx, hp⟩
  · rintro ⟨x, hx, hp⟩; exact ⟨x, h.mem_iff.mpr hx, hp⟩

lemma any_dup {α : Type} (p : α → Bool) {x : α} {l : List α} (h : x ∈ l) :
    (x :: l).any p = l.any p := by
  rw [List.any_cons]
  cases hp : p x
  · simp
  · have : l.any p = true := List.any_eq_true.mpr ⟨x, h, hp⟩
    simp [this]

lemma create_cases (post : Option Nat) (cd : CandidatePayload) (cache : List String) :
    create_contact_in_autotask post cd cache = (false, cache) ∨
    (create_contact_in_autotask post cd cache = (true, normEmail cd.email :: cache) ∧
     normEmail cd.email ≠ "" ∧ normEmail cd.email ∉ cache ∧
     cd.lastName.getD "" ≠ "" ∧ post = some 200) := by
  unfold create_contact_in_autotask
  split_ifs with h1 h2 h3
  · exact Or.inl rfl
  · exact Or.inl rfl
  · exact Or.inl rfl
  · cases post with
    | none => exact Or.inl rfl
    | some s =>
      by_cases hs : s ≠ 200
      · dsimp only
        rw [if_pos hs]
        exact Or.inl rfl
      · dsimp only
        rw [if_neg hs]
        push_neg at hs
        exact Or.inr ⟨rfl, h3, fun hm => h1 ⟨h3, hm⟩, h2, by rw [hs]⟩

lemma create_cache_grows (post : Option Nat) (cd : CandidatePayload) (cache : List String) :
    cache ⊆ (create_contact_in_autotask post cd cache).2 := by
  rcases create_cases post cd cache with h | ⟨h, _⟩
  · rw [h]
    exact List.Subset.refl _
  · rw [h]
    exact fun x hx => List.mem_cons_of_mem _ hx

lemma create_false_cache (post : Option Nat) (cd : CandidatePayload) (cache : List String)
    (h : (create_contact_in_autotask post cd cache).1 = false) :
    (create_contact_in_autotask post cd cache).2 = cache := by
  rcases create_cases post cd cache with heq | ⟨heq, _⟩
  · rw [heq]
  · rw [heq] at h
    exact absurd h (by simp)

lemma create_true_mem (post : Option Nat) (cd : CandidatePayload) (cache : List String)
    (h : (create_contact_in_autotask post cd cache).1 = true) :
    normEmail cd.email ≠ "" ∧
      normEmail cd.email ∈ (create_contact_in_autotask post cd cache).2 := by
  rcases create_cases post cd cache with heq | ⟨heq, hne, _, _, _⟩
  · rw [heq] at h
    exact absurd h (by simp)
  · rw [heq]
    exact ⟨hne, List.mem_cons_self _ _⟩

lemma create_skip_of_mem (post : Option Nat) (cd : CandidatePayload) (cache : List String)
    (h : normEmail cd.email ∈ cache) :
    create_contact_in_autotask post cd cache = (false, cache) := by
  unfold create_contact_in_autotask
  by_cases he : normEmail cd.email = ""
  · rw [if_neg (by simp [he])]
    by_cases hl : cd.lastName.getD "" = ""
    · rw [if_pos hl]
    · rw [if_neg hl, if_pos he]
  · rw [if_pos ⟨he, h⟩]

lemma create_false_mono (post : Option Nat) (cd : CandidatePayload)
    {cache cache' : List String} (hsub : cache ⊆ cache')
    (hf : (create_contact_in_autotask post cd cache).1 = false) :
    create_contact_in_autotask post cd cache' = (false, cache') := by
  by_cases hA : normEmail cd.email ≠ "" ∧ normEmail cd.email ∈ cache'
  · unfold create_contact_in_autotask
    rw [if_pos hA]
  · by_cases hB : cd.lastName.getD "" = ""
    · unfold create_contact_in_autotask
      rw [if_neg hA, if_pos hB]
    · by_cases hC : normEmail cd.email = ""
      · unfold create_contact_in_autotask
        rw [if_neg hA, if_neg hB, if_pos hC]
      · have hnm' : normEmail cd.email ∉ cache' := fun hm => hA ⟨hC, hm⟩
        have hnm : normEmail cd.email ∉ cache := fun hm => hnm' (hsub hm)
        cases hp : post with
        | none =>
          unfold create_contact_in_autotask
          rw [if_neg hA, if_neg hB, if_neg hC]
        | some s =>
          by_cases hs : s ≠ 200
          · unfold create_contact_in_autotask
            rw [if_neg hA, if_neg hB, if_neg hC]
            dsimp only
            rw [if_pos hs]
          · exfalso
            have htrue : (create_contact_in_autotask post cd cache).1 = true := by
              unfold create_contact_in_autotask
              rw [if_neg (fun hx => hnm hx.2), if_neg hB, if_neg hC, hp]
              dsimp only
              rw [if_neg hs]
            rw [hf] at htrue
            exact Bool.false_ne_true htrue

lemma pipeline_cons (post : String → CandidatePayload → Option Nat)
    (cid : String) (p : CandidatePayload) (tl : List (String × CandidatePayload))
    (caches : String → List String) :
    main_creation_pipeline post ((cid, p) :: tl) caches =
      (if (create_contact_in_autotask (post cid p) p (caches cid)).1
       then (main_creation_pipeline post tl
          (fun c => if c = cid
            then (create_contact_in_autotask (post cid p) p (caches cid)).2
            else caches c)).1 + 1
       else (main_creation_pipeline post tl
          (fun c => if c = cid
            then (create_contact_in_autotask (post cid p) p (caches cid)).2
            else caches c)).1,
       (main_creation_pipeline post tl
          (fun c => if c = cid
            then (create_contact_in_autotask (post cid p) p (caches cid)).2
            else caches c)).2) := rfl

lemma pipeline_cache_grows (post : String → CandidatePayload → Option Nat) :
    ∀ (cands : List (String × CandidatePayload)) (caches : String → List String)
      (c : String), caches c ⊆ (main_creation_pipeline post cands caches).2 c := by
  intro cands
  induction cands with
  | nil => intro caches c; exact List.Subset.refl _
  | cons hd tl ih =>
    intro caches c
    obtain ⟨cid, p⟩ := hd
    rw [pipeline_cons]
    refine List.Subset.trans ?_ (ih _ c)
    by_cases hc : c = cid
    · subst hc
      simp only [if_pos rfl]
      exact create_cache_grows _ _ _
    · simp only [if_neg hc]
      exact List.Subset.refl _

/-! ### Claim theorems -/

/-- Claim C1: the Contact Filter Engine keeps a fetched contact detail if
and only if some included relationship has adapter-type-name `"Microsoft"`
with sync true, no included relationship has adapter-type-name
`"Autotask"` with sync true, and its license state matches the requested
filter (`licensed = true` requires the Microsoft Licenses tag,
`licensed = false` requires its absence). -/
theorem get_microsoft_only_contacts_mem_iff
    (results : List (String × Option (Nat × ContactData)))
    (licensed : Bool) (cid : String) (cd : ContactData) :
    (cid, cd) ∈ get_microsoft_only_contacts results licensed ↔
      ((cid, some (200, cd)) ∈ results ∧
       contact_syncs_with cd "Microsoft" = true ∧
       contact_syncs_with cd "Autotask" = false ∧
       contact_has_ms_license cd = licensed) := by
  unfold get_microsoft_only_contacts
  rw [List.mem_filterMap]
  constructor
  · rintro ⟨⟨cid', r⟩, hmem, heq⟩
    cases r with
    | none => simp at heq
    | some sr =>
      obtain ⟨s, cd'⟩ := sr
      dsimp only at heq
      split at heq
      · exact absurd heq (by simp)
      · split at heq
        · rename_i hs hp
          rw [Option.some.injEq, Prod.mk.injEq] at heq
          obtain ⟨hcid, hcd⟩ := heq
          subst hcid; subst hcd
          have hs' : s = 200 := by omega
          subst hs'
          obtain ⟨h1, h2, h3⟩ := (bool_filter_cond _ _ _ _).mp hp
          exact ⟨hmem, h1, h2, h3⟩
        · exact absurd heq (by simp)
  · rintro ⟨hmem, h1, h2, h3⟩
    refine ⟨(cid, some (200, cd)), hmem, ?_⟩
    dsimp only
    rw [if_neg (by omega), if_pos ((bool_filter_cond _ _ _ _).mpr ⟨h1, h2, h3⟩)]

/-- Claim C2: the Organization Scanner returns an organization (among those
whose list entry and detail fetch succeeded) iff its included adapter list
has an item with adapter-type-name `"Autotask"`, sync true and orphaned
false, and every returned triple is (organization id, name, included
relationship list). -/
theorem get_autotask_syncing_orgs_mem_iff (orgs : List (String × String))
    (detail : String → Option (Nat × List IncludedItem))
    (oid oname : String) (included : List IncludedItem) :
    (oid, oname, included) ∈ get_autotask_syncing_orgs orgs detail ↔
      ((oid, oname) ∈ orgs ∧ detail oid = some (200, included) ∧
       included.any adapterActiveAutotask = true) := by
  unfold get_autotask_syncing_orgs
  rw [List.mem_filterMap]
  constructor
  · rintro ⟨⟨oid', oname'⟩, hmem, heq⟩
    dsimp only at heq
    split at heq
    · exact absurd heq (by simp)
    · rename_i s inc hdet
      split at heq
      · exact absurd heq (by simp)
      · split at heq
        · rename_i hs hany
          rw [Option.some.injEq, Prod.mk.injEq] at heq
          obtain ⟨hoid, heq2⟩ := heq
          rw [Prod.mk.injEq] at heq2
          obtain ⟨honame, hinc⟩ := heq2
          subst hoid; subst honame; subst hinc
          have hs' : s = 200 := by omega
          subst hs'
          exact ⟨hmem, hdet, hany⟩
        · exact absurd heq (by simp)
  · rintro ⟨hmem, hdet, hany⟩
    refine ⟨(oid, oname), hmem, ?_⟩
    dsimp only
    rw [hdet]
    dsimp only
    rw [if_neg (by omega), if_pos hany]

/-- Claim C3: for every chain of `N` pages in which page `k` links to page
`k + 1` and page `N` has no next link, the pagination walker returns the
concatenation of the pages' items in page-and-response order with no dedup
or reordering, truncating at the first page whose fetch fails and
terminating within `N` iterations (`pagesReturned` is exactly that
concatenation-until-failure). -/
theorem get_all_contact_ids_on_chain (pages : List (Option (List String))) :
    get_all_contact_ids (chainFetch pages) pages.length (some 0) =
      pagesReturned pages := by
  simpa using get_all_contact_ids_chainFetch pages pages.length 0 (by omega)

/-- Claim C4: on every input on which all attempts fail (exception or
status `≥ 400`), `safe_request` performs exactly `max_retries` attempts,
with a backoff delay of `2 ^ i` seconds after attempt `i` (1, 2, 4, 8, 16
for the default bound 5), and then returns the `None` sentinel rather than
raising an exception. -/
theorem safe_request_exhausts_retries (f : Nat → AttemptOutcome) (max_retries : Nat)
    (h : ∀ j, j < max_retries → attemptFails (f j)) :
    safe_request f max_retries =
      ⟨none, (List.range max_retries).map (fun j => 2 ^ j), max_retries⟩ := by
  have := safe_request_go_all_fail f max_retries 0 (by simpa using h)
  simpa [safe_request] using this

/-- Witness for C4: five attempts all answering 500 yield the sentinel,
five attempts, and backoff delays 1, 2, 4, 8, 16. -/
theorem safe_request_exhausts_retries_witness :
    safe_request (fun _ => AttemptOutcome.resp 500) 5 = ⟨none, [1, 2, 4, 8, 16], 5⟩ := by
  have hfail : ∀ j, j < 5 → attemptFails ((fun _ => AttemptOutcome.resp 500) j) := by
    intro j hj
    exact (by decide : attemptFails (AttemptOutcome.resp 500))
  rw [safe_request_exhausts_retries (fun _ => AttemptOutcome.resp 500) 5 hfail]
  decide

/-- Claim C5: for every candidate payload whose lastName is empty or whose
email is empty, `create_contact_in_autotask` returns false and leaves the
existing-emails cache unchanged. -/
theorem create_skips_missing_fields (post : Option Nat) (cd : CandidatePayload)
    (cache : List String)
    (h : cd.lastName.getD "" = "" ∨ cd.email.getD "" = "") :
    create_contact_in_autotask post cd cache = (false, cache) := by
  rcases create_cases post cd cache with heq | ⟨heq, hne, hnm, hlast, hp⟩
  · exact heq
  · exfalso
    rcases h with hl | he
    · exact hlast hl
    · have : normEmail cd.email = "" := by
        unfold normEmail
        rw [he]
        decide
      exact hne this

/-- Witness for C5: a candidate with empty last name is refused and the
cache is untouched. -/
theorem create_skips_missing_fields_witness :
    create_contact_in_autotask (some 200) noLastNameCandidate ["x@y.z"] =
      (false, ["x@y.z"]) :=
  create_skips_missing_fields (some 200) noLastNameCandidate ["x@y.z"] (Or.inl (by decide))

/-- Claim C6: the duplicate check of `create_contact_in_autotask`
lower-cases the candidate email and compares it with the cache of
lower-cased existing emails, so a candidate whose trimmed email differs
from a cached entry only in letter case is skipped with false; while email
dedup inside `extract_emails_and_phones` is case-sensitive on exact
trimmed strings, keeping both case variants of `janeContact`'s email. -/
theorem email_dedup_case_sensitivity :
    (∀ (post : Option Nat) (cd : CandidatePayload) (cache : List String) (raw cached : String),
        cd.email = some raw → cached ∈ cache → strLower (strStrip raw) = cached →
        create_contact_in_autotask post cd cache = (false, cache)) ∧
    (extract_emails_and_phones janeContact).1 = ["Jane@X.com", "jane@x.com"] := by
  constructor
  · intro post cd cache raw cached hraw hmem hlow
    apply create_skip_of_mem
    rw [hraw]
    show strLower (strStrip raw) ∈ cache
    rw [hlow]
    exact hmem
  · decide

/-- Witness for C6: candidate email `"Jane@X.com"` against cache entry
`"jane@x.com"` is skipped as an existing duplicate. -/
theorem email_dedup_case_sensitivity_witness :
    create_contact_in_autotask (some 200) janeCandidate ["jane@x.com"] =
      (false, ["jane@x.com"]) :=
  email_dedup_case_sensitivity.1 (some 200) janeCandidate ["jane@x.com"]
    "Jane@X.com" "jane@x.com" rfl (by decide) (by decide)

/-- Claim C7: running the creation pipeline a second time with the same
candidate list, against the per-company caches left by the first run
(which contain the emails added by its successful creations), creates zero
additional contacts and leaves every cache unchanged: every candidate that
succeeded before is now an existing duplicate, and every candidate skipped
before is skipped again. -/
theorem main_creation_pipeline_idempotent (post : String → CandidatePayload → Option Nat)
    (cands : List (String × CandidatePayload)) (caches0 : String → List String) :
    main_creation_pipeline post cands (main_creation_pipeline post cands caches0).2 =
      (0, (main_creation_pipeline post cands caches0).2) := by
  induction cands generalizing caches0 with
  | nil => rfl
  | cons hd tl ih =>
    obtain ⟨cid, p⟩ := hd
    have hF : (main_creation_pipeline post ((cid, p) :: tl) caches0).2 =
        (main_creation_pipeline post tl
          (fun c => if c = cid
            then (create_contact_in_autotask (post cid p) p (caches0 cid)).2
            else caches0 c)).2 := rfl
    rw [hF]
    have hstep2 : create_contact_in_autotask (post cid p) p
        ((main_creation_pipeline post tl
          (fun c => if c = cid
            then (create_contact_in_autotask (post cid p) p (caches0 cid)).2
            else caches0 c)).2 cid) =
        (false, (main_creation_pipeline post tl
          (fun c => if c = cid
            then (create_contact_in_autotask (post cid p) p (caches0 cid)).2
            else caches0 c)).2 cid) := by
      cases hb : (create_contact_in_autotask (post cid p) p (caches0 cid)).1 with
      | true =>
        obtain ⟨hne, hmem⟩ := create_true_mem (post cid p) p (caches0 cid) hb
        apply create_skip_of_mem
        refine pipeline_cache_grows post tl _ cid ?_
        simp only [if_pos rfl]
        exact hmem
      | false =>
        refine create_false_mono _ _ (fun x hx => ?_) hb
        refine pipeline_cache_grows post tl _ cid ?_
        simp only [if_pos rfl]
        exact create_cache_grows _ _ _ hx
    rw [pipeline_cons, hstep2]
    simp only [Bool.false_eq_true, if_false]
    have hcaches2 : (fun c => if c = cid
        then (false, (main_creation_pipeline post tl
          (fun c' => if c' = cid
            then (create_contact_in_autotask (post cid p) p (caches0 cid)).2
            else caches0 c')).2 cid).2
        else (main_creation_pipeline post tl
          (fun c' => if c' = cid
            then (create_contact_in_autotask (post cid p) p (caches0 cid)).2
            else caches0 c')).2 c) =
        (main_creation_pipeline post tl
          (fun c' => if c' = cid
            then (create_contact_in_autotask (post cid p) p (caches0 cid)).2
            else caches0 c')).2 := by
      funext c
      by_cases hc : c = cid
      · rw [if_pos hc, hc]
      · rw [if_neg hc]
    rw [hcaches2, ih]

/-- Claim C8: `contact_syncs_with` and `contact_has_ms_license` are pure
functions of the included list, and are order- and
duplication-independent: permuting the list or duplicating an existing
entry does not change either result. -/
theorem classification_order_independent :
    (∀ (a : ContactAttributes) (l l' : List IncludedItem) (target : String),
        l.Perm l' →
        contact_syncs_with ⟨a, l⟩ target = contact_syncs_with ⟨a, l'⟩ target ∧
        contact_has_ms_license ⟨a, l⟩ = contact_has_ms_license ⟨a, l'⟩) ∧
    (∀ (a : ContactAttributes) (x : IncludedItem) (l : List IncludedItem) (target : String),
        x ∈ l →
        contact_syncs_with ⟨a, x :: l⟩ target = contact_syncs_with ⟨a, l⟩ target ∧
        contact_has_ms_license ⟨a, x :: l⟩ = contact_has_ms_license ⟨a, l⟩) := by
  constructor
  · intro a l l' target h
    exact ⟨any_perm _ h, any_perm _ h⟩
  · intro a x l target h
    exact ⟨any_dup _ h, any_dup _ h⟩

/-- Witness for C8: swapping two concrete included items, and duplicating
one, changes neither classification. -/
theorem classification_order_independent_witness :
    (contact_syncs_with ⟨emptyContactAttributes, [msSyncItem, msTagItem]⟩ "Microsoft" =
       contact_syncs_with ⟨emptyContactAttributes, [msTagItem, msSyncItem]⟩ "Microsoft" ∧
     contact_has_ms_license ⟨emptyContactAttributes, [msSyncItem, msTagItem]⟩ =
       contact_has_ms_license ⟨emptyContactAttributes, [msTagItem, msSyncItem]⟩) ∧
    (contact_syncs_with ⟨emptyContactAttributes, [msSyncItem, msSyncItem]⟩ "Microsoft" =
       contact_syncs_with ⟨emptyContactAttributes, [msSyncItem]⟩ "Microsoft" ∧
     contact_has_ms_license ⟨emptyContactAttributes, [msSyncItem, msSyncItem]⟩ =
       contact_has_ms_license ⟨emptyContactAttributes, [msSyncItem]⟩) :=
  ⟨classification_order_independent.1 emptyContactAttributes [msSyncItem, msTagItem]
     [msTagItem, msSyncItem] "Microsoft" (by decide),
   classification_order_independent.2 emptyContactAttributes msSyncItem [msSyncItem]
     "Microsoft" (by decide)⟩

/-- Claim C9: the destination company id is the remote-id of the first
included item whose adapter-type-name is `"Autotask"`, with no check of
that item's sync or orphaned flags; with no Autotask item the result is
`None` (and `main` then skips the organization).  In particular,
`orphanFirstIncluded` classifies as actively syncing thanks to its second
item, yet the remote-id used is `"B"` from its first item, which is
orphaned with sync false. -/
theorem remote_id_ignores_sync_flags :
    (∀ (pre : List IncludedItem) (item : IncludedItem) (rest : List IncludedItem),
        (∀ x ∈ pre, isAutotaskItem x = false) → isAutotaskItem item = true →
        get_autotask_remote_id_from_included (pre ++ item :: rest) =
          item.attributes.remoteId) ∧
    (∀ included : List IncludedItem, (∀ x ∈ included, isAutotaskItem x = false) →
        get_autotask_remote_id_from_included included = none) ∧
    (orphanFirstIncluded.any adapterActiveAutotask = true ∧
     get_autotask_remote_id_from_included orphanFirstIncluded = some "B" ∧
     orphanedAutotaskItem.attributes.sync = false ∧
     orphanedAutotaskItem.attributes.orphaned = true ∧
     activeAutotaskItem.attributes.remoteId = some "A") := by
  refine ⟨?_, ?_, by decide⟩
  · intro pre item rest hpre hitem
    unfold get_autotask_remote_id_from_included
    have h1 : pre.find? isAutotaskItem = none :=
      List.find?_eq_none.mpr
        (fun x hx hp => by rw [hpre x hx] at hp; exact Bool.false_ne_true hp)
    rw [List.find?_append, h1, List.find?_cons_of_pos _ hitem]
    rfl
  · intro included h
    unfold get_autotask_remote_id_from_included
    rw [List.find?_eq_none.mpr
      (fun x hx hp => by rw [h x hx] at hp; exact Bool.false_ne_true hp)]

/-- Witness for C9: with a Microsoft item first, the orphaned Autotask item
next and the active one last, the remote-id returned is `"B"`, the orphaned
item's. -/
theorem remote_id_ignores_sync_flags_witness :
    get_autotask_remote_id_from_included
        ([nonAutotaskItem] ++ orphanedAutotaskItem :: [activeAutotaskItem]) = some "B" :=
  (remote_id_ignores_sync_flags.1 [nonAutotaskItem] orphanedAutotaskItem
    [activeAutotaskItem] (by decide) (by decide)).trans rfl

/-- Claim C10: `create_contact_in_autotask` treats only HTTP status exactly
200 as a successful creation — any other POST status, including 2xx
statuses such as 201, yields false with the cache unchanged — even though
`safe_request` returns every status below 400 as a success on the first
attempt. -/
theorem create_only_200_is_success :
    (∀ (cd : CandidatePayload) (cache : List String) (s : Nat), s ≠ 200 →
        create_contact_in_autotask (some s) cd cache = (false, cache)) ∧
    (∀ (f : Nat → AttemptOutcome) (s max_retries : Nat),
        f 0 = AttemptOutcome.resp s → s < 400 → 1 ≤ max_retries →
        safe_request f max_retries = ⟨some s, [], 1⟩) := by
  constructor
  · intro cd cache s hs
    rcases create_cases (some s) cd cache with heq | ⟨heq, _, _, _, hp⟩
    · exact heq
    · exact absurd (Option.some.inj hp) hs
  · intro f s mr hf hs hmr
    cases mr with
    | zero => omega
    | succ n =>
      show safe_request_go f 0 (n + 1) = _
      simp [safe_request_go, hf, hs]

/-- Witness for C10: a POST answered 201 is returned by the executor as a
success, yet creation reports false and the cache stays empty. -/
theorem create_only_200_is_success_witness :
    create_contact_in_autotask (some 201) bobCandidate [] = (false, []) ∧
      safe_request (fun _ => AttemptOutcome.resp 201) 5 = ⟨some 201, [], 1⟩ :=
  ⟨create_only_200_is_success.1 bobCandidate [] 201 (by decide),
   create_only_200_is_success.2 (fun _ => AttemptOutcome.resp 201) 201 5 rfl
     (by decide) (by decide)⟩

end PushMSContacts
